import Mathlib

/-!
Verification of the fanfic-generator data-access and authorization layer.

The TypeScript source (Astro actions over an `astro:db` store) is embedded
shallowly: each database table becomes a list of rows inside a `Store`
record, each action handler becomes a pure function from an optional
request identity, a raw input value, the mint/clock parameters, and a
store to an `Except Err` result.  Raw inputs model the JavaScript value
space relevant to the zod schemas: a string field of the wire payload is
`Option (Option String)` (absent / null / string), a numeric field is
`Option (Option Int)`.  The zod schemas (`z.string().min(1)`,
`z.string().optional()`, `.refine` presence checks) are embedded as parse
functions that run before the handler, exactly as Astro runs them.
JavaScript truthiness of a nullable string (both `null` and the empty
string are falsy) is embedded by `strTruthy`.
-/

namespace Fanfic

/-- Authenticated identity attached to a request (`context.locals.user`). -/
structure User where
  id : String
deriving Repr, DecidableEq

/-- Row of the `Fandoms` table (src/db/tables.ts). -/
structure Fandom where
  id : String
  userId : Option String
  name : String
  canonType : Option String
  description : Option String
  isSystem : Bool
  createdAt : Nat
  updatedAt : Nat
deriving Repr, DecidableEq

/-- Row of the `FanficStories` table (src/db/tables.ts). -/
structure Story where
  id : String
  userId : String
  fandomId : Option String
  title : String
  summary : Option String
  rating : Option String
  pairing : Option String
  tags : Option String
  status : Option String
  language : Option String
  createdAt : Nat
  updatedAt : Nat
deriving Repr, DecidableEq

/-- Row of the `FanficChapters` table (src/db/tables.ts). -/
structure Chapter where
  id : String
  storyId : String
  orderIndex : Int
  title : Option String
  notes : Option String
  content : String
  createdAt : Nat
  updatedAt : Nat
deriving Repr, DecidableEq

/-- The relational store: one list of rows per table. -/
structure Store where
  fandoms : List Fandom
  stories : List Story
  chapters : List Chapter
deriving Repr, DecidableEq

/-- Error codes of the layer: the three `ActionError` codes thrown by the
handlers plus the input-validation failure produced by the zod schemas
before a handler runs. -/
inductive Err where
  | unauthorized
  | notFound
  | forbidden
  | validationFailed
deriving Repr, DecidableEq

/-- JavaScript truthiness of a nullable string: `null` and the empty
string are falsy, every other string is truthy.  Mirrors `if (x)` on a
`string | null | undefined` value. -/
def strTruthy : Option String → Bool
  | none => false
  | some s => s != ""

/-- Embedding of `requireUser`: the request identity, or `UNAUTHORIZED`
when none is attached. -/
def requireUser (ctx : Option User) : Except Err User :=
  match ctx with
  | none => .error .unauthorized
  | some user => .ok user

/-- Embedding of `ensureFandomAccessible`: select the fandom by id (first
matching row), `NOT_FOUND` when absent, `FORBIDDEN` when it has a truthy
owning userId different from the caller and is not flagged system. -/
def ensureFandomAccessible (s : Store) (fandomId userId : String) : Except Err Fandom :=
  match s.fandoms.find? (fun f => f.id == fandomId) with
  | none => .error .notFound
  | some fandom =>
    if strTruthy fandom.userId && (fandom.userId != some userId) && !fandom.isSystem then
      .error .forbidden
    else
      .ok fandom

/-- Embedding of `getOwnedStory`: select the story filtered by both id and
owning userId in one query; `NOT_FOUND` when no row matches. -/
def getOwnedStory (s : Store) (storyId userId : String) : Except Err Story :=
  match s.stories.find? (fun st => st.id == storyId && st.userId == userId) with
  | none => .error .notFound
  | some story => .ok story

/-- Embedding of `getOwnedChapter`: first `getOwnedStory`, then select the
chapter filtered by both chapter id and story id; `NOT_FOUND` when absent. -/
def getOwnedChapter (s : Store) (chapterId storyId userId : String) : Except Err Chapter := do
  let _ ← getOwnedStory s storyId userId
  match s.chapters.find? (fun c => c.id == chapterId && c.storyId == storyId) with
  | none => .error .notFound
  | some chapter => .ok chapter

/-- Raw wire value of an optional string field: `none` is absent
(undefined), `some none` is an explicit null, `some (some s)` is the
string `s`. -/
abbrev RawStr := Option (Option String)

/-- Raw wire value of an optional integer field. -/
abbrev RawInt := Option (Option Int)

/-- Embedding of `z.string().min(1)` on a raw field: must be present, a
string, and non-empty. -/
def parseReqStr1 (v : RawStr) : Except Err String :=
  match v with
  | some (some s) => if s.length ≥ 1 then .ok s else .error .validationFailed
  | _ => .error .validationFailed

/-- Embedding of `z.string().optional()` on a raw field: absent parses to
`none`; a string parses to itself; an explicit null is rejected. -/
def parseOptStr (v : RawStr) : Except Err (Option String) :=
  match v with
  | none => .ok none
  | some (some s) => .ok (some s)
  | some none => .error .validationFailed

/-- Embedding of `z.string().min(1).optional()`: like `parseOptStr` but a
present string must be non-empty. -/
def parseOptStr1 (v : RawStr) : Except Err (Option String) :=
  match v with
  | none => .ok none
  | some (some s) => if s.length ≥ 1 then .ok (some s) else .error .validationFailed
  | some none => .error .validationFailed

/-- Embedding of `z.number().int().optional()` on a raw integer field. -/
def parseOptInt (v : RawInt) : Except Err (Option Int) :=
  match v with
  | none => .ok none
  | some (some n) => .ok (some n)
  | some none => .error .validationFailed

/-- Raw input of `updateFandom`. -/
structure UpdateFandomRaw where
  id : RawStr
  name : RawStr
  canonType : RawStr
  description : RawStr
deriving Repr, DecidableEq

/-- Parsed input of `updateFandom`. -/
structure UpdateFandomInput where
  id : String
  name : Option String
  canonType : Option String
  description : Option String
deriving Repr, DecidableEq

/-- Embedding of the `updateFandom` zod schema: `id` required non-empty,
`name` optional but non-empty when present, plus the `.refine` requiring
at least one optional field present. -/
def parseUpdateFandomInput (raw : UpdateFandomRaw) : Except Err UpdateFandomInput := do
  let id ← parseReqStr1 raw.id
  let name ← parseOptStr1 raw.name
  let canonType ← parseOptStr raw.canonType
  let description ← parseOptStr raw.description
  if name.isSome || canonType.isSome || description.isSome then
    .ok ⟨id, name, canonType, description⟩
  else
    .error .validationFailed

/-- The explicit second ownership guard inside the `updateFandom` handler:
`fandom.userId && fandom.userId !== user.id`. -/
def updateFandomGuard (fandom : Fandom) (userId : String) : Bool :=
  strTruthy fandom.userId && (fandom.userId != some userId)

/-- Write a nullable column from a parsed optional field: a supplied
string overwrites, an absent field keeps the old value (the TS spread
`...(x !== undefined ? { col: x } : {})` on a nullable column). -/
def suppliedOr (newVal old : Option String) : Option String :=
  match newVal with
  | some v => some v
  | none => old

/-- The `.set` clause of `updateFandom`: apply only the supplied fields,
refresh `updatedAt`. -/
def applyFandomSet (input : UpdateFandomInput) (now : Nat) (f : Fandom) : Fandom :=
  { f with
    name := input.name.getD f.name
    canonType := suppliedOr input.canonType f.canonType
    description := suppliedOr input.description f.description
    updatedAt := now }

/-- Embedding of the `updateFandom` action: zod validation, `requireUser`,
`ensureFandomAccessible`, the explicit second ownership guard, then an
update of every fandom row matching the id, returning the first updated
row and the new store. -/
def updateFandom (ctx : Option User) (raw : UpdateFandomRaw) (now : Nat) (s : Store) :
    Except Err (Option Fandom × Store) := do
  let input ← parseUpdateFandomInput raw
  let user ← requireUser ctx
  let fandom ← ensureFandomAccessible s input.id user.id
  if updateFandomGuard fandom user.id then
    .error .forbidden
  else
    let newFandoms := s.fandoms.map (fun f => if f.id == input.id then applyFandomSet input now f else f)
    let returned := ((s.fandoms.filter (fun f => f.id == input.id)).map (applyFandomSet input now)).head?
    .ok (returned, { s with fandoms := newFandoms })

/-- Raw input of `createFanficStory`. -/
structure CreateStoryRaw where
  fandomId : RawStr
  title : RawStr
  summary : RawStr
  rating : RawStr
  pairing : RawStr
  tags : RawStr
  status : RawStr
  language : RawStr
deriving Repr, DecidableEq

/-- Parsed input of `createFanficStory`. -/
structure CreateStoryInput where
  fandomId : Option String
  title : String
  summary : Option String
  rating : Option String
  pairing : Option String
  tags : Option String
  status : Option String
  language : Option String
deriving Repr, DecidableEq

/-- Embedding of the `createFanficStory` zod schema: `title` required
non-empty, the rest plain optional strings. -/
def parseCreateStoryInput (raw : CreateStoryRaw) : Except Err CreateStoryInput := do
  let fandomId ← parseOptStr raw.fandomId
  let title ← parseReqStr1 raw.title
  let summary ← parseOptStr raw.summary
  let rating ← parseOptStr raw.rating
  let pairing ← parseOptStr raw.pairing
  let tags ← parseOptStr raw.tags
  let status ← parseOptStr raw.status
  let language ← parseOptStr raw.language
  .ok ⟨fandomId, title, summary, rating, pairing, tags, status, language⟩

/-- Embedding of the `createFanficStory` action: when the supplied
`fandomId` is truthy (`if (input.fandomId)`), check accessibility first;
then insert the new story row (appended to the table) and return it. -/
def createFanficStory (ctx : Option User) (raw : CreateStoryRaw) (freshId : String) (now : Nat)
    (s : Store) : Except Err (Story × Store) := do
  let input ← parseCreateStoryInput raw
  let user ← requireUser ctx
  let _ ← (match input.fandomId with
    | some fid =>
      if fid == "" then Except.ok () else (ensureFandomAccessible s fid user.id).map (fun _ => ())
    | none => Except.ok ())
  let story : Story :=
    { id := freshId
      userId := user.id
      fandomId := input.fandomId
      title := input.title
      summary := input.summary
      rating := input.rating
      pairing := input.pairing
      tags := input.tags
      status := input.status
      language := input.language
      createdAt := now
      updatedAt := now }
  .ok (story, { s with stories := s.stories ++ [story] })

/-- Raw input of `updateFanficStory`. -/
structure UpdateStoryRaw where
  id : RawStr
  fandomId : RawStr
  title : RawStr
  summary : RawStr
  rating : RawStr
  pairing : RawStr
  tags : RawStr
  status : RawStr
  language : RawStr
deriving Repr, DecidableEq

/-- Parsed input of `updateFanficStory`.  The `fandomId` field keeps the
raw absent / null / string distinction because the handler tests both
`!== undefined` and `!== null` on it (zod itself never lets a null
through, so `some none` cannot occur after a successful parse). -/
structure UpdateStoryInput where
  id : String
  fandomId : RawStr
  title : Option String
  summary : Option String
  rating : Option String
  pairing : Option String
  tags : Option String
  status : Option String
  language : Option String
deriving Repr, DecidableEq

/-- Embedding of the `updateFanficStory` zod schema: `id` required
non-empty, every other field `z.string().optional()` (note: no `min(1)`
on `title`), plus the `.refine` requiring at least one optional field. -/
def parseUpdateStoryInput (raw : UpdateStoryRaw) : Except Err UpdateStoryInput := do
  let id ← parseReqStr1 raw.id
  let _ ← parseOptStr raw.fandomId
  let title ← parseOptStr raw.title
  let summary ← parseOptStr raw.summary
  let rating ← parseOptStr raw.rating
  let pairing ← parseOptStr raw.pairing
  let tags ← parseOptStr raw.tags
  let status ← parseOptStr raw.status
  let language ← parseOptStr raw.language
  if raw.fandomId.isSome || title.isSome || summary.isSome || rating.isSome || pairing.isSome
      || tags.isSome || status.isSome || language.isSome then
    .ok ⟨id, raw.fandomId, title, summary, rating, pairing, tags, status, language⟩
  else
    .error .validationFailed

/-- The `.set` clause of `updateFanficStory`: a supplied `fandomId`
(string or explicit null) is written as given, omitted fields are kept,
`updatedAt` is refreshed. -/
def applyStorySet (input : UpdateStoryInput) (now : Nat) (st : Story) : Story :=
  { st with
    fandomId := match input.fandomId with
      | none => st.fandomId
      | some v => v
    title := input.title.getD st.title
    summary := suppliedOr input.summary st.summary
    rating := suppliedOr input.rating st.rating
    pairing := suppliedOr input.pairing st.pairing
    tags := suppliedOr input.tags st.tags
    status := suppliedOr input.status st.status
    language := suppliedOr input.language st.language
    updatedAt := now }

/-- Embedding of the `updateFanficStory` action: zod validation,
`requireUser`, `getOwnedStory`, accessibility re-check only when the
supplied `fandomId` is neither undefined nor null, then an update of
every story row matching the id, returning the first updated row. -/
def updateFanficStory (ctx : Option User) (raw : UpdateStoryRaw) (now : Nat) (s : Store) :
    Except Err (Option Story × Store) := do
  let input ← parseUpdateStoryInput raw
  let user ← requireUser ctx
  let _ ← getOwnedStory s input.id user.id
  let _ ← (match input.fandomId with
    | some (some fid) => (ensureFandomAccessible s fid user.id).map (fun _ => ())
    | _ => Except.ok ())
  let newStories := s.stories.map (fun st => if st.id == input.id then applyStorySet input now st else st)
  let returned := ((s.stories.filter (fun st => st.id == input.id)).map (applyStorySet input now)).head?
  .ok (returned, { s with stories := newStories })

/-- Raw input of `createFanficChapter`. -/
structure CreateChapterRaw where
  storyId : RawStr
  orderIndex : RawInt
  title : RawStr
  notes : RawStr
  content : RawStr
deriving Repr, DecidableEq

/-- Parsed input of `createFanficChapter`. -/
structure CreateChapterInput where
  storyId : String
  orderIndex : Option Int
  title : Option String
  notes : Option String
  content : String
deriving Repr, DecidableEq

/-- Embedding of the `createFanficChapter` zod schema: `storyId` and
`content` required non-empty, `orderIndex` an optional integer. -/
def parseCreateChapterInput (raw : CreateChapterRaw) : Except Err CreateChapterInput := do
  let storyId ← parseReqStr1 raw.storyId
  let orderIndex ← parseOptInt raw.orderIndex
  let title ← parseOptStr raw.title
  let notes ← parseOptStr raw.notes
  let content ← parseReqStr1 raw.content
  .ok ⟨storyId, orderIndex, title, notes, content⟩

/-- Embedding of the `createFanficChapter` action: `getOwnedStory` on the
parent, then insert the chapter with `orderIndex` defaulting to 1. -/
def createFanficChapter (ctx : Option User) (raw : CreateChapterRaw) (freshId : String)
    (now : Nat) (s : Store) : Except Err (Chapter × Store) := do
  let input ← parseCreateChapterInput raw
  let user ← requireUser ctx
  let _ ← getOwnedStory s input.storyId user.id
  let chapter : Chapter :=
    { id := freshId
      storyId := input.storyId
      orderIndex := input.orderIndex.getD 1
      title := input.title
      notes := input.notes
      content := input.content
      createdAt := now
      updatedAt := now }
  .ok (chapter, { s with chapters := s.chapters ++ [chapter] })

/-- Raw input of `updateFanficChapter`. -/
structure UpdateChapterRaw where
  id : RawStr
  storyId : RawStr
  orderIndex : RawInt
  title : RawStr
  notes : RawStr
  content : RawStr
deriving Repr, DecidableEq

/-- Parsed input of `updateFanficChapter`. -/
structure UpdateChapterInput where
  id : String
  storyId : String
  orderIndex : Option Int
  title : Option String
  notes : Option String
  content : Option String
deriving Repr, DecidableEq

/-- Embedding of the `updateFanficChapter` zod schema: `id` and `storyId`
required non-empty, the rest optional, plus the `.refine` requiring at
least one optional field present. -/
def parseUpdateChapterInput (raw : UpdateChapterRaw) : Except Err UpdateChapterInput := do
  let id ← parseReqStr1 raw.id
  let storyId ← parseReqStr1 raw.storyId
  let orderIndex ← parseOptInt raw.orderIndex
  let title ← parseOptStr raw.title
  let notes ← parseOptStr raw.notes
  let content ← parseOptStr raw.content
  if orderIndex.isSome || title.isSome || notes.isSome || content.isSome then
    .ok ⟨id, storyId, orderIndex, title, notes, content⟩
  else
    .error .validationFailed

/-- The `.set` clause of `updateFanficChapter`: apply only the supplied
fields, refresh `updatedAt`. -/
def applyChapterSet (input : UpdateChapterInput) (now : Nat) (c : Chapter) : Chapter :=
  { c with
    orderIndex := input.orderIndex.getD c.orderIndex
    title := suppliedOr input.title c.title
    notes := suppliedOr input.notes c.notes
    content := input.content.getD c.content
    updatedAt := now }

/-- Embedding of the `updateFanficChapter` action: zod validation,
`requireUser`, `getOwnedChapter`, then an update of every chapter row
matching the id, returning the first updated row. -/
def updateFanficChapter (ctx : Option User) (raw : UpdateChapterRaw) (now : Nat) (s : Store) :
    Except Err (Option Chapter × Store) := do
  let input ← parseUpdateChapterInput raw
  let user ← requireUser ctx
  let _ ← getOwnedChapter s input.id input.storyId user.id
  let newChapters := s.chapters.map (fun c => if c.id == input.id then applyChapterSet input now c else c)
  let returned := ((s.chapters.filter (fun c => c.id == input.id)).map (applyChapterSet input now)).head?
  .ok (returned, { s with chapters := newChapters })

/-- Raw input of `deleteFanficChapter`. -/
structure DeleteChapterRaw where
  id : RawStr
  storyId : RawStr
deriving Repr, DecidableEq

/-- Parsed input of `deleteFanficChapter`. -/
structure DeleteChapterInput where
  id : String
  storyId : String
deriving Repr, DecidableEq

/-- Embedding of the `deleteFanficChapter` zod schema: both fields
required non-empty. -/
def parseDeleteChapterInput (raw : DeleteChapterRaw) : Except Err DeleteChapterInput := do
  let id ← parseReqStr1 raw.id
  let storyId ← parseReqStr1 raw.storyId
  .ok ⟨id, storyId⟩

/-- Embedding of the `deleteFanficChapter` action: `getOwnedChapter`, then
a delete filtered by chapter id alone; `NOT_FOUND` when the delete
affected zero rows. -/
def deleteFanficChapter (ctx : Option User) (raw : DeleteChapterRaw) (s : Store) :
    Except Err Store := do
  let input ← parseDeleteChapterInput raw
  let user ← requireUser ctx
  let _ ← getOwnedChapter s input.id input.storyId user.id
  let affected := s.chapters.countP (fun c => c.id == input.id)
  let remaining := s.chapters.filter (fun c => !(c.id == input.id))
  if affected == 0 then
    .error .notFound
  else
    .ok { s with chapters := remaining }

/-! ## General lemmas -/

/-- Head of a filtered-then-mapped list is the mapped first match. -/
lemma head?_map_filter_eq {α β : Type} (p : α → Bool) (g : α → β) (l : List α) :
    ((l.filter p).map g).head? = (l.find? p).map g := by
  induction l with
  | nil => rfl
  | cons a t ih =>
    cases h : p a
    · simp [List.filter_cons, h, ih]
    · simp [List.filter_cons, h]

/-- The boolean blocking condition of `ensureFandomAccessible`, spelled
out propositionally: owner non-null, non-empty, different from the
caller, and the fandom not flagged system. -/
lemma fandomAccessBlock_iff (f : Fandom) (uid : String) :
    (strTruthy f.userId && (f.userId != some uid) && !f.isSystem) = true ↔
      (f.userId ≠ none ∧ f.userId ≠ some "" ∧ f.userId ≠ some uid ∧ f.isSystem = false) := by
  cases huid : f.userId with
  | none => simp [strTruthy, huid]
  | some u =>
    by_cases hu : u = ""
    · subst hu
      simp [strTruthy, huid]
    · simp [strTruthy, huid, hu, and_assoc]

/-! ## C1 -/

/-- C1, counterexample: a fandom whose owning userId is the empty string
(non-null), different from the caller, with `isSystem = false`, is
nevertheless returned as accessible by `ensureFandomAccessible` —
JavaScript truthiness short-circuits the Forbidden branch — contradicting
the claim that such a fandom fails with Forbidden. -/
theorem ensureFandomAccessible_emptyOwner_cex :
    ensureFandomAccessible ⟨[⟨"f1", some "", "HP", none, none, false, 0, 0⟩], [], []⟩ "f1" "alice"
        = .ok ⟨"f1", some "", "HP", none, none, false, 0, 0⟩
      ∧ (some "" : Option String) ≠ none
      ∧ (some "" : Option String) ≠ some "alice" := by
  exact ⟨rfl, by decide, by decide⟩

/-- C1 (amended): `ensureFandomAccessible` fails with NotFound when no
fandom with the given id exists; fails with Forbidden exactly when the
found fandom has a non-null, non-empty owning userId different from the
caller and `isSystem = false`; and succeeds returning the fandom in every
other case — the caller's own fandoms, system fandoms owned by someone
else, fandoms with a null owner regardless of `isSystem`, and fandoms
whose recorded owner is the empty string. -/
theorem ensureFandomAccessible_spec (s : Store) (fid uid : String) :
    (s.fandoms.find? (fun f => f.id == fid) = none →
      ensureFandomAccessible s fid uid = .error .notFound)
  ∧ (∀ f, s.fandoms.find? (fun g => g.id == fid) = some f →
      ((f.userId ≠ none ∧ f.userId ≠ some "" ∧ f.userId ≠ some uid ∧ f.isSystem = false) →
        ensureFandomAccessible s fid uid = .error .forbidden)
      ∧ (¬ (f.userId ≠ none ∧ f.userId ≠ some "" ∧ f.userId ≠ some uid ∧ f.isSystem = false) →
        ensureFandomAccessible s fid uid = .ok f)) := by
  constructor
  · intro h
    simp [ensureFandomAccessible, h]
  · intro f hf
    constructor
    · intro hcond
      have hb := (fandomAccessBlock_iff f uid).mpr hcond
      simp [ensureFandomAccessible, hf, hb]
    · intro hcond
      have hb : (strTruthy f.userId && (f.userId != some uid) && !f.isSystem) = false := by
        cases hcb : (strTruthy f.userId && (f.userId != some uid) && !f.isSystem)
        · rfl
        · exact absurd ((fandomAccessBlock_iff f uid).mp hcb) hcond
      simp [ensureFandomAccessible, hf, hb]

/-- C1, witness: on a one-fandom store owned by "bob" with
`isSystem = false`, the owner "bob" gets the fandom back. -/
theorem ensureFandomAccessible_spec_witness :
    ensureFandomAccessible ⟨[⟨"f2", some "bob", "HP", none, none, false, 0, 0⟩], [], []⟩ "f2" "bob"
      = .ok ⟨"f2", some "bob", "HP", none, none, false, 0, 0⟩ := by
  exact ((ensureFandomAccessible_spec
    ⟨[⟨"f2", some "bob", "HP", none, none, false, 0, 0⟩], [], []⟩ "f2" "bob").2
    ⟨"f2", some "bob", "HP", none, none, false, 0, 0⟩ (by decide)).2 (by decide)

/-! ## C2 -/

/-- C2: `getOwnedStory` fails with NotFound both when no story with the
given id exists and when every story with that id is owned by a different
user — indistinguishably, the same error value — and succeeds exactly
when a story with that id owned by the caller is in the store, returning
such a story. -/
theorem getOwnedStory_spec (s : Store) (sid uid : String) :
    ((∀ st ∈ s.stories, ¬(st.id = sid ∧ st.userId = uid)) →
      getOwnedStory s sid uid = .error .notFound)
  ∧ ((∃ st ∈ s.stories, st.id = sid ∧ st.userId = uid) →
      ∃ st, getOwnedStory s sid uid = .ok st ∧ st ∈ s.stories ∧ st.id = sid ∧ st.userId = uid)
  ∧ (∀ st, getOwnedStory s sid uid = .ok st →
      st ∈ s.stories ∧ st.id = sid ∧ st.userId = uid) := by
  refine ⟨?_, ?_, ?_⟩
  · intro h
    have hnone : s.stories.find? (fun st => st.id == sid && st.userId == uid) = none := by
      rw [List.find?_eq_none]
      intro st hst hp
      simp only [Bool.and_eq_true, beq_iff_eq] at hp
      exact h st hst hp
    simp [getOwnedStory, hnone]
  · rintro ⟨st, hmem, hid, huid⟩
    have hsome : (s.stories.find? (fun st => st.id == sid && st.userId == uid)).isSome := by
      rw [List.find?_isSome]
      exact ⟨st, hmem, by simp [hid, huid]⟩
    obtain ⟨st', hfind⟩ := Option.isSome_iff_exists.mp hsome
    have hp := List.find?_some hfind
    simp only [Bool.and_eq_true, beq_iff_eq] at hp
    exact ⟨st', by simp [getOwnedStory, hfind], List.mem_of_find?_eq_some hfind, hp.1, hp.2⟩
  · intro st h
    unfold getOwnedStory at h
    cases hfind : s.stories.find? (fun st => st.id == sid && st.userId == uid) with
    | none =>
      rw [hfind] at h
      cases h
    | some st' =>
      rw [hfind] at h
      have hst : st' = st := by
        simpa using h
      subst hst
      have hp := List.find?_some hfind
      simp only [Bool.and_eq_true, beq_iff_eq] at hp
      exact ⟨List.mem_of_find?_eq_some hfind, hp.1, hp.2⟩

/-- C2, witness: on a one-story store, the owner's lookup succeeds and a
stranger's lookup fails with NotFound. -/
theorem getOwnedStory_spec_witness :
    (∃ st, getOwnedStory ⟨[], [⟨"s1", "alice", none, "T", none, none, none, none, none, none, 0, 0⟩], []⟩ "s1" "alice"
        = .ok st
      ∧ st ∈ (⟨[], [⟨"s1", "alice", none, "T", none, none, none, none, none, none, 0, 0⟩], []⟩ : Store).stories
      ∧ st.id = "s1" ∧ st.userId = "alice")
    ∧ getOwnedStory ⟨[], [⟨"s1", "alice", none, "T", none, none, none, none, none, none, 0, 0⟩], []⟩ "s1" "mallory"
        = .error .notFound := by
  constructor
  · exact (getOwnedStory_spec _ "s1" "alice").2.1
      ⟨⟨"s1", "alice", none, "T", none, none, none, none, none, none, 0, 0⟩, by simp, rfl, rfl⟩
  · exact (getOwnedStory_spec _ "s1" "mallory").1 (by decide)

/-! ## C3 -/

/-- Truthiness of a nullable string, spelled out propositionally. -/
lemma strTruthy_iff (v : Option String) : strTruthy v = true ↔ v ≠ none ∧ v ≠ some "" := by
  cases v with
  | none => simp [strTruthy]
  | some u =>
    by_cases hu : u = ""
    · subst hu
      simp [strTruthy]
    · simp [strTruthy, hu]

/-- C3, counterexample: a fandom with a null owning userId and
`isSystem = true` is updated successfully by an ordinary authenticated
user ("alice"), contradicting the claim that such fandoms are immutable
by ordinary users. -/
theorem updateFandom_nullOwnerSystem_cex :
    updateFandom (some ⟨"alice"⟩) ⟨some (some "f1"), some (some "New"), none, none⟩ 5
        ⟨[⟨"f1", none, "HP", none, none, true, 0, 0⟩], [], []⟩
      = .ok (some ⟨"f1", none, "New", none, none, true, 0, 5⟩,
             ⟨[⟨"f1", none, "New", none, none, true, 0, 5⟩], [], []⟩)
    ∧ (⟨"f1", none, "HP", none, none, true, 0, 0⟩ : Fandom).userId = none
    ∧ (⟨"f1", none, "HP", none, none, true, 0, 0⟩ : Fandom).isSystem = true := by
  exact ⟨rfl, rfl, rfl⟩

/-- C3 (amended): a fandom with a null owning userId is mutable by every
authenticated user regardless of its `isSystem` flag — both ownership
guards of `updateFandom` pass on a null owner, so the update is applied;
no immutability of ownerless system fandoms holds. -/
theorem updateFandom_nullOwner_mutable (user : User) (raw : UpdateFandomRaw)
    (input : UpdateFandomInput) (now : Nat) (s : Store) (f : Fandom) :
    parseUpdateFandomInput raw = .ok input →
    s.fandoms.find? (fun g => g.id == input.id) = some f →
    f.userId = none →
    ∃ s', updateFandom (some user) raw now s
      = .ok (some (applyFandomSet input now f), s') := by
  intro hparse hf hnull
  refine ⟨Store.mk
    (s.fandoms.map fun g => if g.id == input.id then applyFandomSet input now g else g)
    s.stories s.chapters, ?_⟩
  simp [updateFandom, Bind.bind, Except.bind, hparse, requireUser, ensureFandomAccessible, hf,
    hnull, strTruthy, updateFandomGuard, head?_map_filter_eq]

/-- C3, witness: a concrete null-owner, non-system fandom updated by
"alice". -/
theorem updateFandom_nullOwner_mutable_witness :
    ∃ s', updateFandom (some ⟨"alice"⟩) ⟨some (some "f1"), some (some "Neo"), none, none⟩ 4
        ⟨[⟨"f1", none, "HP", none, none, false, 2, 2⟩], [], []⟩
      = .ok (some (applyFandomSet ⟨"f1", some "Neo", none, none⟩ 4
          ⟨"f1", none, "HP", none, none, false, 2, 2⟩), s') := by
  exact updateFandom_nullOwner_mutable ⟨"alice"⟩ _ _ 4 _ _ rfl rfl rfl

/-! ## C4 -/

/-- C4, counterexample: a system fandom owned by "bob" is admitted by
`ensureFandomAccessible` for caller "alice", yet `updateFandom` by
"alice" fails with Forbidden through the second guard — so the second
guard is not redundant with the accessibility check. -/
theorem updateFandom_secondGuard_cex :
    ensureFandomAccessible ⟨[⟨"f1", some "bob", "HP", none, none, true, 0, 0⟩], [], []⟩ "f1" "alice"
      = .ok ⟨"f1", some "bob", "HP", none, none, true, 0, 0⟩
    ∧ updateFandom (some ⟨"alice"⟩) ⟨some (some "f1"), some (some "New"), none, none⟩ 7
        ⟨[⟨"f1", some "bob", "HP", none, none, true, 0, 0⟩], [], []⟩
      = .error .forbidden := by
  exact ⟨rfl, rfl⟩

/-- C4 (amended): the second ownership guard of `updateFandom` is not
redundant: on a fandom admitted by `ensureFandomAccessible` for the same
caller, the guard rejects exactly the system fandoms whose owning userId
is non-null, non-empty and different from the caller; it passes on every
other admitted fandom. -/
theorem updateFandomGuard_spec (s : Store) (fid uid : String) (f : Fandom) :
    ensureFandomAccessible s fid uid = .ok f →
    (updateFandomGuard f uid = true ↔
      (f.userId ≠ none ∧ f.userId ≠ some "" ∧ f.userId ≠ some uid ∧ f.isSystem = true)) := by
  intro h
  unfold ensureFandomAccessible at h
  cases hfind : s.fandoms.find? (fun g => g.id == fid) with
  | none =>
    rw [hfind] at h
    cases h
  | some f' =>
    rw [hfind] at h
    cases hcb : (strTruthy f'.userId && (f'.userId != some uid) && !f'.isSystem) with
    | true =>
      simp [hcb] at h
    | false =>
      simp [hcb] at h
      rw [h] at hcb
      constructor
      · intro hg
        have h1 : strTruthy f.userId = true := ((Bool.and_eq_true _ _).mp hg).1
        have h2 : (f.userId != some uid) = true := ((Bool.and_eq_true _ _).mp hg).2
        have hsys : f.isSystem = true := by
          cases hs : f.isSystem
          · rw [h1, h2, hs] at hcb
            simp at hcb
          · rfl
        obtain ⟨hnn, hne⟩ := (strTruthy_iff f.userId).mp h1
        exact ⟨hnn, hne, bne_iff_ne.mp h2, hsys⟩
      · rintro ⟨hnn, hne, hnid, hsys⟩
        have h1 : strTruthy f.userId = true := (strTruthy_iff f.userId).mpr ⟨hnn, hne⟩
        simp [updateFandomGuard, h1, bne_iff_ne, hnid]

/-- C4, witness: the guard rejects the concrete admitted system fandom
owned by "bob" when the caller is "alice". -/
theorem updateFandomGuard_spec_witness :
    updateFandomGuard ⟨"f9", some "bob", "HP", none, none, true, 0, 0⟩ "alice" = true := by
  exact (updateFandomGuard_spec ⟨[⟨"f9", some "bob", "HP", none, none, true, 0, 0⟩], [], []⟩
    "f9" "alice" ⟨"f9", some "bob", "HP", none, none, true, 0, 0⟩ rfl).mpr (by decide)

/-! ## C5 -/

/-- Parsing a required non-empty string either succeeds or reports the
validation failure. -/
lemma parseReqStr1_cases (v : RawStr) :
    (∃ s, parseReqStr1 v = .ok s) ∨ parseReqStr1 v = .error .validationFailed := by
  unfold parseReqStr1
  cases v with
  | none => exact Or.inr rfl
  | some o =>
    cases o with
    | none => exact Or.inr rfl
    | some s =>
      by_cases h : s.length ≥ 1
      · exact Or.inl ⟨s, by simp [h]⟩
      · exact Or.inr (by simp [h])

/-- C5, counterexample: `updateFanficStory` called by the story's owner
with `fandomId` explicitly supplied as null (and no other field) fails
with a validation error — the zod schema `z.string().optional()` rejects
an explicit null — contradicting the claim that such a call passes input
validation and clears the association. -/
theorem updateFanficStory_nullFandom_cex :
    updateFanficStory (some ⟨"alice"⟩)
        ⟨some (some "s1"), some none, none, none, none, none, none, none, none⟩ 5
        ⟨[], [⟨"s1", "alice", some "f1", "T", none, none, none, none, none, none, 0, 0⟩], []⟩
      = .error .validationFailed := by
  rfl

/-- C5 (amended): a `fandomId` explicitly supplied as null never reaches
the `updateFanficStory` handler: the zod schema rejects it with a
validation failure before any store access (the result is the validation
error for every store); only a supplied non-null `fandomId` triggers
re-validation of the new fandom's accessibility, whose error fails the
whole operation. -/
theorem updateFanficStory_fandomId_null_validation :
    (∀ (ctx : Option User) (raw : UpdateStoryRaw) (now : Nat) (s : Store),
      raw.fandomId = some none →
      updateFanficStory ctx raw now s = .error .validationFailed)
  ∧ (∀ (user : User) (raw : UpdateStoryRaw) (input : UpdateStoryInput) (now : Nat) (s : Store)
      (fid : String) (e : Err) (st : Story),
      parseUpdateStoryInput raw = .ok input →
      input.fandomId = some (some fid) →
      getOwnedStory s input.id user.id = .ok st →
      ensureFandomAccessible s fid user.id = .error e →
      updateFanficStory (some user) raw now s = .error e) := by
  constructor
  · intro ctx raw now s hnullf
    have hparse : parseUpdateStoryInput raw = .error .validationFailed := by
      unfold parseUpdateStoryInput
      rcases parseReqStr1_cases raw.id with ⟨idv, hid⟩ | hid
      · simp [hid, Bind.bind, Except.bind, hnullf, parseOptStr]
      · simp [hid, Bind.bind, Except.bind]
    simp [updateFanficStory, hparse, Bind.bind, Except.bind]
  · intro user raw input now s fid e st hparse hfid howned herr
    simp [updateFanficStory, hparse, Bind.bind, Except.bind, requireUser, howned, hfid, herr,
      Except.map]

/-- C5, witness: a supplied non-null `fandomId` naming a fandom privately
owned by someone else makes the owner's story update fail with
Forbidden. -/
theorem updateFanficStory_fandomId_null_validation_witness :
    updateFanficStory (some ⟨"alice"⟩)
        ⟨some (some "s1"), some (some "fb"), none, none, none, none, none, none, none⟩ 5
        ⟨[⟨"fb", some "bob", "B", none, none, false, 0, 0⟩],
         [⟨"s1", "alice", none, "T", none, none, none, none, none, none, 0, 0⟩], []⟩
      = .error .forbidden := by
  exact updateFanficStory_fandomId_null_validation.2 ⟨"alice"⟩ _ _ 5 _ "fb" .forbidden
    ⟨"s1", "alice", none, "T", none, none, none, none, none, none, 0, 0⟩ rfl rfl rfl rfl

/-! ## C6 -/

/-- C6, counterexample: `createFanficStory` with a supplied `fandomId`
equal to the empty string — a string value, and one naming no existing
fandom (the fandom table is empty) — skips the accessibility check (the
handler only runs it on a truthy `fandomId`) and inserts the story with
`fandomId` set to that dangling empty-string reference, contradicting the
claim that a story with a non-existent fandomId is never inserted. -/
theorem createFanficStory_emptyFandomId_cex :
    createFanficStory (some ⟨"alice"⟩)
        ⟨some (some ""), some (some "T"), none, none, none, none, none, none⟩ "s9" 3 ⟨[], [], []⟩
      = .ok (⟨"s9", "alice", some "", "T", none, none, none, none, none, none, 3, 3⟩,
             ⟨[], [⟨"s9", "alice", some "", "T", none, none, none, none, none, none, 3, 3⟩], []⟩)
    ∧ (⟨[], [], []⟩ : Store).fandoms = [] := by
  exact ⟨rfl, rfl⟩

/-- C6 (amended): for every supplied non-empty `fandomId`,
`createFanficStory` runs `ensureFandomAccessible` before inserting and
fails with the accessibility error (NotFound or Forbidden) whenever the
referenced fandom is absent or inaccessible, inserting nothing; only the
empty-string `fandomId` evades the check (JavaScript truthiness) and is
inserted as a dangling reference. -/
theorem createFanficStory_fandom_check (user : User) (raw : CreateStoryRaw)
    (input : CreateStoryInput) (freshId : String) (now : Nat) (s : Store) (fid : String)
    (e : Err) :
    parseCreateStoryInput raw = .ok input →
    input.fandomId = some fid →
    fid ≠ "" →
    ensureFandomAccessible s fid user.id = .error e →
    createFanficStory (some user) raw freshId now s = .error e := by
  intro hparse hfid hne herr
  simp [createFanficStory, hparse, Bind.bind, Except.bind, requireUser, hfid, hne, herr,
    Except.map]

/-- C6, witness: a supplied `fandomId` naming no fandom makes the create
fail with NotFound on an empty store. -/
theorem createFanficStory_fandom_check_witness :
    createFanficStory (some ⟨"alice"⟩)
        ⟨some (some "nope"), some (some "T"), none, none, none, none, none, none⟩ "s9" 3
        ⟨[], [], []⟩
      = .error .notFound := by
  exact createFanficStory_fandom_check ⟨"alice"⟩ _ _ "s9" 3 _ "nope" .notFound rfl rfl
    (by decide) rfl

/-! ## C7 -/

/-- C7: the code contradicts the non-empty-title invariant on the update
path.  `createFanficStory` does reject an empty title
(`z.string().min(1)`), but `updateFanficStory` validates `title` with
`z.string().optional()` only — no `min(1)` — so an owner supplying
`title = ""` passes validation and the layer writes a story row whose
title is the empty string. -/
theorem updateFanficStory_emptyTitle_accepted :
    createFanficStory (some ⟨"alice"⟩) ⟨none, some (some ""), none, none, none, none, none, none⟩
        "s2" 1 ⟨[], [], []⟩
      = .error .validationFailed
    ∧ updateFanficStory (some ⟨"alice"⟩)
        ⟨some (some "s1"), none, some (some ""), none, none, none, none, none, none⟩ 9
        ⟨[], [⟨"s1", "alice", some "f1", "T", none, none, none, none, none, none, 0, 0⟩], []⟩
      = .ok (some ⟨"s1", "alice", some "f1", "", none, none, none, none, none, none, 0, 9⟩,
             ⟨[], [⟨"s1", "alice", some "f1", "", none, none, none, none, none, none, 0, 9⟩], []⟩) := by
  exact ⟨rfl, rfl⟩

/-! ## C8 -/

/-- C8: each of `updateFandom`, `updateFanficStory` and
`updateFanficChapter`, called with none of its optional update fields
present, fails with the validation error; the result is that error for
every store and every request identity, and no store is produced — the
`.refine` check fails before any store access. -/
theorem update_zeroFields_validation :
    (∀ (ctx : Option User) (raw : UpdateFandomRaw) (now : Nat) (s : Store),
      raw.name = none → raw.canonType = none → raw.description = none →
      updateFandom ctx raw now s = .error .validationFailed)
  ∧ (∀ (ctx : Option User) (raw : UpdateStoryRaw) (now : Nat) (s : Store),
      raw.fandomId = none → raw.title = none → raw.summary = none → raw.rating = none →
      raw.pairing = none → raw.tags = none → raw.status = none → raw.language = none →
      updateFanficStory ctx raw now s = .error .validationFailed)
  ∧ (∀ (ctx : Option User) (raw : UpdateChapterRaw) (now : Nat) (s : Store),
      raw.orderIndex = none → raw.title = none → raw.notes = none → raw.content = none →
      updateFanficChapter ctx raw now s = .error .validationFailed) := by
  refine ⟨?_, ?_, ?_⟩
  · intro ctx raw now s h1 h2 h3
    have hparse : parseUpdateFandomInput raw = .error .validationFailed := by
      unfold parseUpdateFandomInput
      rcases parseReqStr1_cases raw.id with ⟨idv, hid⟩ | hid
      · simp [hid, Bind.bind, Except.bind, h1, h2, h3, parseOptStr, parseOptStr1]
      · simp [hid, Bind.bind, Except.bind]
    simp [updateFandom, hparse, Bind.bind, Except.bind]
  · intro ctx raw now s h1 h2 h3 h4 h5 h6 h7 h8
    have hparse : parseUpdateStoryInput raw = .error .validationFailed := by
      unfold parseUpdateStoryInput
      rcases parseReqStr1_cases raw.id with ⟨idv, hid⟩ | hid
      · simp [hid, Bind.bind, Except.bind, h1, h2, h3, h4, h5, h6, h7, h8, parseOptStr]
      · simp [hid, Bind.bind, Except.bind]
    simp [updateFanficStory, hparse, Bind.bind, Except.bind]
  · intro ctx raw now s h1 h2 h3 h4
    have hparse : parseUpdateChapterInput raw = .error .validationFailed := by
      unfold parseUpdateChapterInput
      rcases parseReqStr1_cases raw.id with ⟨idv, hid⟩ | hid
      · rcases parseReqStr1_cases raw.storyId with ⟨sv, hsid⟩ | hsid
        · simp [hid, hsid, Bind.bind, Except.bind, h1, h2, h3, h4, parseOptStr, parseOptInt]
        · simp [hid, hsid, Bind.bind, Except.bind]
      · simp [hid, Bind.bind, Except.bind]
    simp [updateFanficChapter, hparse, Bind.bind, Except.bind]

/-- C8, witness: the three updates with only their required identifiers
supplied each fail with the validation error on a concrete store. -/
theorem update_zeroFields_validation_witness :
    updateFandom (some ⟨"alice"⟩) ⟨some (some "f1"), none, none, none⟩ 1 ⟨[], [], []⟩
      = .error .validationFailed
    ∧ updateFanficStory (some ⟨"alice"⟩)
        ⟨some (some "s1"), none, none, none, none, none, none, none, none⟩ 1 ⟨[], [], []⟩
      = .error .validationFailed
    ∧ updateFanficChapter (some ⟨"alice"⟩)
        ⟨some (some "c1"), some (some "s1"), none, none, none, none⟩ 1 ⟨[], [], []⟩
      = .error .validationFailed := by
  exact ⟨update_zeroFields_validation.1 _ _ 1 _ rfl rfl rfl,
    update_zeroFields_validation.2.1 _ _ 1 _ rfl rfl rfl rfl rfl rfl rfl rfl,
    update_zeroFields_validation.2.2 _ _ 1 _ rfl rfl rfl rfl⟩

/-! ## C10 -/

/-- C10: once `getOwnedChapter` (the transitive ownership check) passes,
`deleteFanficChapter` succeeds, removing exactly the chapters whose id
matches — the delete is filtered by chapter id alone — and repeating the
same call on the resulting store fails with NotFound: the first call
succeeds and the second fails. -/
theorem deleteFanficChapter_double (user : User) (raw : DeleteChapterRaw)
    (input : DeleteChapterInput) (s : Store) (c : Chapter) :
    parseDeleteChapterInput raw = .ok input →
    getOwnedChapter s input.id input.storyId user.id = .ok c →
    ∃ s', deleteFanficChapter (some user) raw s = .ok s'
      ∧ s'.chapters = s.chapters.filter (fun ch => !(ch.id == input.id))
      ∧ s'.stories = s.stories
      ∧ deleteFanficChapter (some user) raw s' = .error .notFound := by
  intro hparse hoc
  cases howned : getOwnedStory s input.storyId user.id with
  | error e =>
    simp [getOwnedChapter, Bind.bind, Except.bind, howned] at hoc
  | ok st₀ =>
    have hfc : ∃ c₀, s.chapters.find? (fun ch => ch.id == input.id && ch.storyId == input.storyId)
        = some c₀ := by
      cases hfc' : s.chapters.find? (fun ch => ch.id == input.id && ch.storyId == input.storyId) with
      | none =>
        simp [getOwnedChapter, Bind.bind, Except.bind, howned, hfc'] at hoc
      | some c₀ => exact ⟨c₀, rfl⟩
    obtain ⟨c₀, hfind⟩ := hfc
    have hcid : (c₀.id == input.id) = true := by
      have hp := List.find?_some hfind
      exact ((Bool.and_eq_true _ _).mp hp).1
    have hcount : s.chapters.countP (fun ch => ch.id == input.id) ≠ 0 := by
      have hpos : 0 < s.chapters.countP (fun ch => ch.id == input.id) := by
        rw [List.countP_pos_iff]
        exact ⟨c₀, List.mem_of_find?_eq_some hfind, hcid⟩
      omega
    refine ⟨⟨s.fandoms, s.stories, s.chapters.filter (fun ch => !(ch.id == input.id))⟩, ?_, rfl,
      rfl, ?_⟩
    · simp [deleteFanficChapter, Bind.bind, Except.bind, hparse, requireUser, getOwnedChapter,
        howned, hfind, hcount]
    · have hfind2 : (s.chapters.filter (fun ch => !(ch.id == input.id))).find?
          (fun ch => ch.id == input.id && ch.storyId == input.storyId) = none := by
        rw [List.find?_eq_none]
        intro ch hch
        have := (List.mem_filter.mp hch).2
        simp only [Bool.not_eq_true'] at this
        simp [this]
      simp [deleteFanficChapter, Bind.bind, Except.bind, hparse, requireUser, getOwnedChapter,
        getOwnedStory, hfind2]
      cases hms : s.stories.find? (fun st => st.id == input.storyId && st.userId == user.id) with
      | none =>
        exfalso
        unfold getOwnedStory at howned
        rw [hms] at howned
        cases howned
      | some st₁ => simp

/-- C10, witness: a concrete owned chapter is deleted once successfully
and the identical second call fails with NotFound. -/
theorem deleteFanficChapter_double_witness :
    ∃ s', deleteFanficChapter (some ⟨"alice"⟩) ⟨some (some "c1"), some (some "s1")⟩
        ⟨[], [⟨"s1", "alice", none, "T", none, none, none, none, none, none, 0, 0⟩],
         [⟨"c1", "s1", 1, none, none, "body", 0, 0⟩]⟩
      = .ok s'
      ∧ s'.chapters = ([⟨"c1", "s1", 1, none, none, "body", 0, 0⟩] : List Chapter).filter
          (fun ch => !(ch.id == "c1"))
      ∧ s'.stories = [⟨"s1", "alice", none, "T", none, none, none, none, none, none, 0, 0⟩]
      ∧ deleteFanficChapter (some ⟨"alice"⟩) ⟨some (some "c1"), some (some "s1")⟩ s'
      = .error .notFound := by
  exact deleteFanficChapter_double ⟨"alice"⟩ _ ⟨"c1", "s1"⟩ _
    ⟨"c1", "s1", 1, none, none, "body", 0, 0⟩ rfl rfl

/-! ## C9 -/

/-- Frame facts of the `updateFandom` set-clause: untouched columns keep
their values, supplied columns take the supplied value, `updatedAt`
becomes the update time. -/
lemma fandomFrame_out (input : UpdateFandomInput) (now : Nat) (f : Fandom) (out : Option Fandom)
    (hout : some (applyFandomSet input now f) = out) :
    ∃ f', out = some f'
      ∧ f'.id = f.id ∧ f'.userId = f.userId ∧ f'.isSystem = f.isSystem
      ∧ f'.createdAt = f.createdAt ∧ f'.updatedAt = now
      ∧ (input.name = none → f'.name = f.name)
      ∧ (∀ v, input.name = some v → f'.name = v)
      ∧ (input.canonType = none → f'.canonType = f.canonType)
      ∧ (∀ v, input.canonType = some v → f'.canonType = some v)
      ∧ (input.description = none → f'.description = f.description)
      ∧ (∀ v, input.description = some v → f'.description = some v) := by
  refine ⟨applyFandomSet input now f, hout.symm, rfl, rfl, rfl, rfl, rfl, ?_, ?_, ?_, ?_, ?_, ?_⟩
  · intro h
    simp [applyFandomSet, h]
  · intro v hv
    simp [applyFandomSet, hv]
  · intro h
    simp [applyFandomSet, suppliedOr, h]
  · intro v hv
    simp [applyFandomSet, suppliedOr, hv]
  · intro h
    simp [applyFandomSet, suppliedOr, h]
  · intro v hv
    simp [applyFandomSet, suppliedOr, hv]

/-- Frame facts of the `updateFanficStory` set-clause. -/
lemma storyFrame_out (input : UpdateStoryInput) (now : Nat) (st : Story) (out : Option Story)
    (hout : some (applyStorySet input now st) = out) :
    ∃ st', out = some st'
      ∧ st'.id = st.id ∧ st'.userId = st.userId
      ∧ st'.createdAt = st.createdAt ∧ st'.updatedAt = now
      ∧ (input.fandomId = none → st'.fandomId = st.fandomId)
      ∧ (∀ v, input.fandomId = some v → st'.fandomId = v)
      ∧ (input.title = none → st'.title = st.title)
      ∧ (∀ v, input.title = some v → st'.title = v)
      ∧ (input.summary = none → st'.summary = st.summary)
      ∧ (∀ v, input.summary = some v → st'.summary = some v)
      ∧ (input.rating = none → st'.rating = st.rating)
      ∧ (∀ v, input.rating = some v → st'.rating = some v)
      ∧ (input.pairing = none → st'.pairing = st.pairing)
      ∧ (∀ v, input.pairing = some v → st'.pairing = some v)
      ∧ (input.tags = none → st'.tags = st.tags)
      ∧ (∀ v, input.tags = some v → st'.tags = some v)
      ∧ (input.status = none → st'.status = st.status)
      ∧ (∀ v, input.status = some v → st'.status = some v)
      ∧ (input.language = none → st'.language = st.language)
      ∧ (∀ v, input.language = some v → st'.language = some v) := by
  refine ⟨applyStorySet input now st, hout.symm, rfl, rfl, rfl, rfl,
    ?_, ?_, ?_, ?_, ?_, ?_, ?_, ?_, ?_, ?_, ?_, ?_, ?_, ?_, ?_, ?_⟩
  · intro h
    simp [applyStorySet, h]
  · intro v hv
    simp [applyStorySet, hv]
  · intro h
    simp [applyStorySet, h]
  · intro v hv
    simp [applyStorySet, hv]
  · intro h
    simp [applyStorySet, suppliedOr, h]
  · intro v hv
    simp [applyStorySet, suppliedOr, hv]
  · intro h
    simp [applyStorySet, suppliedOr, h]
  · intro v hv
    simp [applyStorySet, suppliedOr, hv]
  · intro h
    simp [applyStorySet, suppliedOr, h]
  · intro v hv
    simp [applyStorySet, suppliedOr, hv]
  · intro h
    simp [applyStorySet, suppliedOr, h]
  · intro v hv
    simp [applyStorySet, suppliedOr, hv]
  · intro h
    simp [applyStorySet, suppliedOr, h]
  · intro v hv
    simp [applyStorySet, suppliedOr, hv]
  · intro h
    simp [applyStorySet, suppliedOr, h]
  · intro v hv
    simp [applyStorySet, suppliedOr, hv]

/-- Frame facts of the `updateFanficChapter` set-clause. -/
lemma chapterFrame_out (input : UpdateChapterInput) (now : Nat) (c : Chapter)
    (out : Option Chapter) (hout : some (applyChapterSet input now c) = out) :
    ∃ c', out = some c'
      ∧ c'.id = c.id ∧ c'.storyId = c.storyId ∧ c'.createdAt = c.createdAt ∧ c'.updatedAt = now
      ∧ (input.orderIndex = none → c'.orderIndex = c.orderIndex)
      ∧ (∀ v, input.orderIndex = some v → c'.orderIndex = v)
      ∧ (input.title = none → c'.title = c.title)
      ∧ (∀ v, input.title = some v → c'.title = some v)
      ∧ (input.notes = none → c'.notes = c.notes)
      ∧ (∀ v, input.notes = some v → c'.notes = some v)
      ∧ (input.content = none → c'.content = c.content)
      ∧ (∀ v, input.content = some v → c'.content = v) := by
  refine ⟨applyChapterSet input now c, hout.symm, rfl, rfl, rfl, rfl,
    ?_, ?_, ?_, ?_, ?_, ?_, ?_, ?_⟩
  · intro h
    simp [applyChapterSet, h]
  · intro v hv
    simp [applyChapterSet, hv]
  · intro h
    simp [applyChapterSet, suppliedOr, h]
  · intro v hv
    simp [applyChapterSet, suppliedOr, hv]
  · intro h
    simp [applyChapterSet, suppliedOr, h]
  · intro v hv
    simp [applyChapterSet, suppliedOr, hv]
  · intro h
    simp [applyChapterSet, h]
  · intro v hv
    simp [applyChapterSet, hv]

/-- C9: every successful partial update (`updateFandom`,
`updateFanficStory`, `updateFanficChapter`) returns a row that agrees
with the pre-update target row (the first stored row whose id matches) on
every field that was not explicitly supplied, carries the supplied value
on every supplied field, and has `updatedAt` set to the time of the
update; identifiers, owners and `createdAt` are never touched. -/
theorem update_frame_spec :
    (∀ (user : User) (raw : UpdateFandomRaw) (input : UpdateFandomInput)
       (now : Nat) (s : Store) (f : Fandom) (out : Option Fandom) (s' : Store),
      parseUpdateFandomInput raw = .ok input →
      s.fandoms.find? (fun g => g.id == input.id) = some f →
      updateFandom (some user) raw now s = .ok (out, s') →
      ∃ f', out = some f'
        ∧ f'.id = f.id ∧ f'.userId = f.userId ∧ f'.isSystem = f.isSystem
        ∧ f'.createdAt = f.createdAt ∧ f'.updatedAt = now
        ∧ (input.name = none → f'.name = f.name)
        ∧ (∀ v, input.name = some v → f'.name = v)
        ∧ (input.canonType = none → f'.canonType = f.canonType)
        ∧ (∀ v, input.canonType = some v → f'.canonType = some v)
        ∧ (input.description = none → f'.description = f.description)
        ∧ (∀ v, input.description = some v → f'.description = some v))
  ∧ (∀ (user : User) (raw : UpdateStoryRaw) (input : UpdateStoryInput)
       (now : Nat) (s : Store) (st : Story) (out : Option Story) (s' : Store),
      parseUpdateStoryInput raw = .ok input →
      s.stories.find? (fun t => t.id == input.id) = some st →
      updateFanficStory (some user) raw now s = .ok (out, s') →
      ∃ st', out = some st'
        ∧ st'.id = st.id ∧ st'.userId = st.userId
        ∧ st'.createdAt = st.createdAt ∧ st'.updatedAt = now
        ∧ (input.fandomId = none → st'.fandomId = st.fandomId)
        ∧ (∀ v, input.fandomId = some v → st'.fandomId = v)
        ∧ (input.title = none → st'.title = st.title)
        ∧ (∀ v, input.title = some v → st'.title = v)
        ∧ (input.summary = none → st'.summary = st.summary)
        ∧ (∀ v, input.summary = some v → st'.summary = some v)
        ∧ (input.rating = none → st'.rating = st.rating)
        ∧ (∀ v, input.rating = some v → st'.rating = some v)
        ∧ (input.pairing = none → st'.pairing = st.pairing)
        ∧ (∀ v, input.pairing = some v → st'.pairing = some v)
        ∧ (input.tags = none → st'.tags = st.tags)
        ∧ (∀ v, input.tags = some v → st'.tags = some v)
        ∧ (input.status = none → st'.status = st.status)
        ∧ (∀ v, input.status = some v → st'.status = some v)
        ∧ (input.language = none → st'.language = st.language)
        ∧ (∀ v, input.language = some v → st'.language = some v))
  ∧ (∀ (user : User) (raw : UpdateChapterRaw) (input : UpdateChapterInput)
       (now : Nat) (s : Store) (c : Chapter) (out : Option Chapter) (s' : Store),
      parseUpdateChapterInput raw = .ok input →
      s.chapters.find? (fun ch => ch.id == input.id) = some c →
      updateFanficChapter (some user) raw now s = .ok (out, s') →
      ∃ c', out = some c'
        ∧ c'.id = c.id ∧ c'.storyId = c.storyId ∧ c'.createdAt = c.createdAt
        ∧ c'.updatedAt = now
        ∧ (input.orderIndex = none → c'.orderIndex = c.orderIndex)
        ∧ (∀ v, input.orderIndex = some v → c'.orderIndex = v)
        ∧ (input.title = none → c'.title = c.title)
        ∧ (∀ v, input.title = some v → c'.title = some v)
        ∧ (input.notes = none → c'.notes = c.notes)
        ∧ (∀ v, input.notes = some v → c'.notes = some v)
        ∧ (input.content = none → c'.content = c.content)
        ∧ (∀ v, input.content = some v → c'.content = v)) := by
  refine ⟨?_, ?_, ?_⟩
  · intro user raw input now s f out s' hparse hf hop
    simp only [updateFandom, Bind.bind, Except.bind, hparse, requireUser, ensureFandomAccessible,
      hf, head?_map_filter_eq, Option.map_some'] at hop
    split at hop
    · exact absurd hop (by simp)
    · split at hop
      · exact absurd hop (by simp)
      · simp only [Except.ok.injEq, Prod.mk.injEq] at hop
        exact fandomFrame_out input now f out hop.1
  · intro user raw input now s st out s' hparse hf hop
    simp only [updateFanficStory, Bind.bind, Except.bind, hparse, requireUser, getOwnedStory,
      ensureFandomAccessible, hf, head?_map_filter_eq, Option.map_some'] at hop
    split at hop
    · exact absurd hop (by simp)
    · split at hop
      · exact absurd hop (by simp)
      · simp only [Except.ok.injEq, Prod.mk.injEq] at hop
        exact storyFrame_out input now st out hop.1
  · intro user raw input now s c out s' hparse hf hop
    simp only [updateFanficChapter, Bind.bind, Except.bind, hparse, requireUser, getOwnedChapter,
      getOwnedStory, hf, head?_map_filter_eq, Option.map_some'] at hop
    split at hop
    · exact absurd hop (by simp)
    · simp only [Except.ok.injEq, Prod.mk.injEq] at hop
      exact chapterFrame_out input now c out hop.1

/-- C9, witness: three concrete one-field updates, each leaving the other
columns at their pre-update values and stamping the update time. -/
theorem update_frame_spec_witness :
    (∃ f' : Fandom, f'.name = "New" ∧ f'.canonType = none ∧ f'.description = some "d"
      ∧ f'.userId = some "alice" ∧ f'.createdAt = 2 ∧ f'.updatedAt = 9)
    ∧ (∃ st' : Story, st'.title = "T2" ∧ st'.summary = some "S" ∧ st'.fandomId = some "f0"
      ∧ st'.createdAt = 2 ∧ st'.updatedAt = 9)
    ∧ (∃ c' : Chapter, c'.notes = some "n" ∧ c'.title = some "Ch" ∧ c'.content = "body"
      ∧ c'.createdAt = 2 ∧ c'.updatedAt = 9) := by
  refine ⟨?_, ?_, ?_⟩
  · obtain ⟨f', hout, hid, huid, hsys, hcre, hupd, hn0, hn1, hc0, hc1, hd0, hd1⟩ :=
      update_frame_spec.1 ⟨"alice"⟩ ⟨some (some "f1"), some (some "New"), none, none⟩
        ⟨"f1", some "New", none, none⟩ 9
        ⟨[⟨"f1", some "alice", "HP", none, some "d", false, 2, 2⟩], [], []⟩
        ⟨"f1", some "alice", "HP", none, some "d", false, 2, 2⟩
        (some ⟨"f1", some "alice", "New", none, some "d", false, 2, 9⟩)
        ⟨[⟨"f1", some "alice", "New", none, some "d", false, 2, 9⟩], [], []⟩ rfl rfl rfl
    exact ⟨f', hn1 "New" rfl, hc0 rfl, hd0 rfl, huid, hcre, hupd⟩
  · obtain ⟨st', hout, hid, huid, hcre, hupd, hf0, hf1, ht0, ht1, hs0, hs1, hr0, hr1, hp0, hp1,
      htg0, htg1, hst0, hst1, hl0, hl1⟩ :=
      update_frame_spec.2.1 ⟨"alice"⟩
        ⟨some (some "s1"), none, some (some "T2"), none, none, none, none, none, none⟩
        ⟨"s1", none, some "T2", none, none, none, none, none, none⟩ 9
        ⟨[], [⟨"s1", "alice", some "f0", "T", some "S", none, none, none, none, none, 2, 2⟩], []⟩
        ⟨"s1", "alice", some "f0", "T", some "S", none, none, none, none, none, 2, 2⟩
        (some ⟨"s1", "alice", some "f0", "T2", some "S", none, none, none, none, none, 2, 9⟩)
        ⟨[], [⟨"s1", "alice", some "f0", "T2", some "S", none, none, none, none, none, 2, 9⟩], []⟩
        rfl rfl rfl
    exact ⟨st', ht1 "T2" rfl, hs0 rfl, hf0 rfl, hcre, hupd⟩
  · obtain ⟨c', hout, hid, hsid, hcre, hupd, ho0, ho1, ht0, ht1, hn0, hn1, hc0, hc1⟩ :=
      update_frame_spec.2.2 ⟨"alice"⟩
        ⟨some (some "c1"), some (some "s1"), none, none, some (some "n"), none⟩
        ⟨"c1", "s1", none, none, some "n", none⟩ 9
        ⟨[], [⟨"s1", "alice", none, "T", none, none, none, none, none, none, 0, 0⟩],
         [⟨"c1", "s1", 1, some "Ch", none, "body", 2, 2⟩]⟩
        ⟨"c1", "s1", 1, some "Ch", none, "body", 2, 2⟩
        (some ⟨"c1", "s1", 1, some "Ch", some "n", "body", 2, 9⟩)
        ⟨[], [⟨"s1", "alice", none, "T", none, none, none, none, none, none, 0, 0⟩],
         [⟨"c1", "s1", 1, some "Ch", some "n", "body", 2, 9⟩]⟩ rfl rfl rfl
    exact ⟨c', hn1 "n" rfl, ht0 rfl, hc0 rfl, hcre, hupd⟩

end Fanfic
